import Mathlib

/-!
Verification of the Virtual-try-on outfit-history store.

This file is a shallow embedding of the client-side state machine of the
virtual try-on editor: the outfit-history store (App component state and
its handlers), the saved-outfit gallery, and the friendly-error-message
translation.  Each definition is translated from the corresponding source
function; JavaScript truthiness, object key/value order, and array
indexing semantics are made explicit.  The asynchronous external
image-generation calls are modelled by an explicit outcome parameter of
type Except ErrValue String passed to each handler, and the built-in JSON
parser is modelled by an explicit parse function parameter; theorems
quantify over both, so they hold for every behaviour of the externals.
Handlers whose source can throw a TypeError (indexing past the end of the
history) return Option; none models the crash.
-/

/-- Boolean test: the list ns occurs as a prefix of hs (character lists). -/
def startsWithList : List Char → List Char → Bool
  | [], _ => true
  | _ :: _, [] => false
  | a :: as, b :: bs => if a = b then startsWithList as bs else false

/-- Boolean substring containment on character lists: needle occurs in hay. -/
def containsSubList (hay needle : List Char) : Bool :=
  if startsWithList needle hay then true
  else
    match hay with
    | [] => false
    | _ :: t => containsSubList t needle

/-- JavaScript String.prototype.includes: substring containment. -/
def strIncludes (hay needle : String) : Bool :=
  containsSubList hay.toList needle.toList

/-- JavaScript `x || d` for an optional string x: d when x is undefined or
the empty string (falsy), x itself otherwise. -/
def falsyOrDefault : Option String → String → String
  | none, d => d
  | some s, d => if s = "" then d else s

/-- The value caught by a catch clause, classified the way
getFriendlyErrorMessage inspects it: an Error instance (carrying its
message), a string, any other truthy value (carrying its String(...)
rendering), or a falsy non-error value. -/
inductive ErrValue where
  | errObj (message : String)
  | str (s : String)
  | otherTruthy (rendering : String)
  | falsyNonErr
deriving DecidableEq, Repr

/-- The rawMessage extraction at the top of getFriendlyErrorMessage. -/
def rawMessageOf : ErrValue → String
  | .errObj m => m
  | .str s => s
  | .otherTruthy r => r
  | .falsyNonErr => "An unknown error occurred."

/-- Left-to-right split of a character list on a non-overlapping
separator occurrence, driven by a fuel argument (the hay length is
always enough fuel because the separator is non-empty wherever this is
used). -/
def splitFuel : Nat → List Char → List Char → List Char → List (List Char)
  | 0, _, acc, _ => [acc.reverse]
  | _ + 1, [], acc, _ => [acc.reverse]
  | fuel + 1, c :: rest, acc, sep =>
    if startsWithList sep (c :: rest) then
      acc.reverse :: splitFuel fuel ((c :: rest).drop sep.length) [] sep
    else splitFuel fuel rest (c :: acc) sep

/-- JavaScript String.prototype.split with a non-empty string separator:
the pieces between the leftmost non-overlapping separator occurrences. -/
def jsSplit (s sep : String) : List String :=
  (splitFuel s.toList.length s.toList [] sep.toList).map List.asString

/-- The specific message built when a nested JSON error message carrying
an unsupported MIME type is found (source line 30). -/
def unsupportedMimeMessage (nestedMessage : String) : String :=
  "File type \x27" ++ falsyOrDefault ((jsSplit nestedMessage ": ").get? 1) "unsupported"
    ++ "\x27 is not supported. Please use a format like PNG, JPEG, or WEBP."

/-- The generic fallback for any error containing "Unsupported MIME type"
(source line 36). -/
def genericUnsupportedMessage : String :=
  "Unsupported file format. Please upload an image format like PNG, JPEG, or WEBP."

/-- Embedding of getFriendlyErrorMessage (src/unnamed/part_000 lines 12-40).
The parameter parseNested models the try block around JSON.parse: it
returns some m exactly when JSON.parse succeeds on the raw message and the
chained access errorJson?.error?.message yields a truthy string m without
throwing; every other outcome (parse failure, absent, falsy or non-string
nested message, whose .includes call would throw inside the same try) is
none and falls through to the generic message, as in the source. -/
def getFriendlyErrorMessage (parseNested : String → Option String)
    (error : ErrValue) (context : String) : String :=
  let rawMessage := rawMessageOf error
  if strIncludes rawMessage "Unsupported MIME type" = true then
    match parseNested rawMessage with
    | some nestedMessage =>
      if strIncludes nestedMessage "Unsupported MIME type" = true then
        unsupportedMimeMessage nestedMessage
      else genericUnsupportedMessage
    | none => genericUnsupportedMessage
  else context ++ ". " ++ rawMessage

/-- WardrobeItem from types.ts: id, name, image url. -/
structure WardrobeItem where
  id : String
  name : String
  url : String
deriving DecidableEq, Repr

/-- OutfitLayer: an optional garment (none only for the base layer) and the
pose-instruction-to-image map.  The JavaScript object poseImages is
embedded as an association list in key insertion order, matching object
key enumeration order for string keys. -/
structure OutfitLayer where
  garment : Option WardrobeItem
  poseImages : List (String × String)
deriving DecidableEq, Repr

/-- SavedOutfit from types.ts. -/
structure SavedOutfit where
  id : String
  thumbnailUrl : String
  layers : List OutfitLayer
  createdAt : String
deriving DecidableEq, Repr

/-- The activeTab state field. -/
inductive Tab where
  | editor
  | gallery
deriving DecidableEq, Repr

/-- The App component state relevant to the outfit-history store
(src/unnamed/part_001 lines 54-64).  Presentation-only fields
(isSheetCollapsed, media query) are omitted. -/
structure AppState where
  modelImageUrl : Option String
  outfitHistory : List OutfitLayer
  currentOutfitIndex : Nat
  isLoading : Bool
  loadingMessage : String
  error : Option String
  currentPoseIndex : Nat
  wardrobe : List WardrobeItem
  savedOutfits : List SavedOutfit
  activeTab : Tab
deriving DecidableEq, Repr

/-- The fixed pose instruction list (source lines 21-29). -/
def poseInstructionList : List String :=
  [ "Full frontal view, hands on hips"
  , "Slightly turned, 3/4 view"
  , "Side profile view"
  , "Jumping in the air, mid-action shot"
  , "Walking towards camera"
  , "Leaning against a wall"
  , "Sitting on the floor" ]

/-- JavaScript poseInstructionList[i] used as an object key: out-of-range
indexing yields undefined, which stringifies to the key "undefined". -/
def poseInstructionAt (i : Nat) : String :=
  (poseInstructionList[i]?).getD "undefined"

/-- JavaScript object property read obj[key] on the poseImages map. -/
def lookupPose : List (String × String) → String → Option String
  | [], _ => none
  | (k, v) :: rest, key => if k = key then some v else lookupPose rest key

/-- JavaScript object property write obj[key] = val: updates an existing
key in place (keeping its position) or appends a new key at the end. -/
def insertPose : List (String × String) → String → String → List (String × String)
  | [], key, val => [(key, val)]
  | (k, v) :: rest, key, val =>
    if k = key then (k, val) :: rest else (k, v) :: insertPose rest key val

/-- JavaScript Object.values on the poseImages map, in insertion order. -/
def poseValues (m : List (String × String)) : List String :=
  m.map Prod.snd

/-- JavaScript truthiness of a string-or-undefined value: truthy exactly
when present and non-empty. -/
def isTruthy : Option String → Bool
  | none => false
  | some s => if s = "" then false else true

/-- JavaScript falsiness of a string-or-undefined value. -/
def isFalsy (o : Option String) : Bool :=
  !(isTruthy o)

/-- The displayImageUrl memo (source lines 88-95): the current layer's
render for the current pose, falling back to the layer's first cached
render, falling back to the raw model image when there is no history or
no layer at the current index. -/
def displayImageUrl (s : AppState) : Option String :=
  match s.outfitHistory with
  | [] => s.modelImageUrl
  | _ :: _ =>
    match s.outfitHistory[s.currentOutfitIndex]? with
    | none => s.modelImageUrl
    | some currentLayer =>
      match lookupPose currentLayer.poseImages (poseInstructionAt s.currentPoseIndex) with
      | some img => some img
      | none => (poseValues currentLayer.poseImages).head?

/-- The activeOutfitLayers memo (source lines 78-81): the prefix of the
history up to and including the current index. -/
def activeOutfitLayers (s : AppState) : List OutfitLayer :=
  s.outfitHistory.take (s.currentOutfitIndex + 1)

/-- The redo test on source line 182: nextLayer.garment?.id === garmentInfo.id. -/
def garmentIdMatches (l : OutfitLayer) (g : WardrobeItem) : Bool :=
  match l.garment with
  | some gi => if gi.id = g.id then true else false
  | none => false

/-- handleModelFinalized (source lines 106-113): resets the history to a
single base layer whose only pose render is the finalized model image. -/
def handleModelFinalized (s : AppState) (url : String) : AppState :=
  { s with
    modelImageUrl := some url
    outfitHistory := [{ garment := none, poseImages := [(poseInstructionAt 0, url)] }]
    currentOutfitIndex := 0 }

/-- The generation branch of handleGarmentSelect (source lines 188-218),
after the guards and the redo check have fallen through.  The second
component records that the external generator was invoked. -/
def garmentGenerate (parseNested : String → Option String) (s : AppState)
    (garmentInfo : WardrobeItem) (gen : Except ErrValue String) : AppState × Bool :=
  match gen with
  | .ok newImageUrl =>
    let newLayer : OutfitLayer :=
      { garment := some garmentInfo
        poseImages := [(poseInstructionAt s.currentPoseIndex, newImageUrl)] }
    ({ s with
        error := none
        outfitHistory := s.outfitHistory.take (s.currentOutfitIndex + 1) ++ [newLayer]
        currentOutfitIndex := s.currentOutfitIndex + 1
        wardrobe :=
          if s.wardrobe.any (fun item => item.id == garmentInfo.id) then s.wardrobe
          else s.wardrobe ++ [garmentInfo]
        isLoading := false
        loadingMessage := "" }, true)
  | .error err =>
    ({ s with
        error := some (getFriendlyErrorMessage parseNested err "Failed to apply garment")
        isLoading := false
        loadingMessage := "" }, true)

/-- handleGarmentSelect (source lines 178-219).  Returns the state after
the whole operation settles, paired with whether the external generator
was invoked.  Guard order follows the source: falsy display image or busy
flag first, then the pure-redo check on the layer at index + 1. -/
def handleGarmentSelect (parseNested : String → Option String) (s : AppState)
    (garmentInfo : WardrobeItem) (gen : Except ErrValue String) : AppState × Bool :=
  if isFalsy (displayImageUrl s) = true ∨ s.isLoading = true then (s, false)
  else
    match s.outfitHistory[s.currentOutfitIndex + 1]? with
    | some nextLayer =>
      if garmentIdMatches nextLayer garmentInfo = true then
        ({ s with
            currentOutfitIndex := s.currentOutfitIndex + 1
            currentPoseIndex := 0 }, false)
      else garmentGenerate parseNested s garmentInfo gen
    | none => garmentGenerate parseNested s garmentInfo gen

/-- handleRemoveLastGarment (source lines 221-226): decrements the index
and resets the pose index when the index is positive; note that the
source has no busy-flag guard here. -/
def handleRemoveLastGarment (s : AppState) : AppState :=
  if 0 < s.currentOutfitIndex then
    { s with
        currentOutfitIndex := s.currentOutfitIndex - 1
        currentPoseIndex := 0 }
  else s

/-- handlePoseSelect (source lines 228-264).  none models the TypeError
thrown when outfitHistory[currentOutfitIndex] is undefined and its
poseImages field is read.  On failure the pose index is restored to its
pre-call value, the net effect being that it is unchanged in the settled
state. -/
def handlePoseSelect (parseNested : String → Option String) (s : AppState)
    (newIndex : Nat) (gen : Except ErrValue String) : Option (AppState × Bool) :=
  if s.isLoading = true ∨ s.outfitHistory = [] ∨ newIndex = s.currentPoseIndex then
    some (s, false)
  else
    match s.outfitHistory[s.currentOutfitIndex]? with
    | none => none
    | some currentLayer =>
      if isTruthy (lookupPose currentLayer.poseImages (poseInstructionAt newIndex)) = true then
        some ({ s with currentPoseIndex := newIndex }, false)
      else if isTruthy (poseValues currentLayer.poseImages).head? = false then
        some (s, false)
      else
        match gen with
        | .ok newImageUrl =>
          some ({ s with
              error := none
              currentPoseIndex := newIndex
              outfitHistory := s.outfitHistory.set s.currentOutfitIndex
                { currentLayer with
                    poseImages := insertPose currentLayer.poseImages
                      (poseInstructionAt newIndex) newImageUrl }
              isLoading := false
              loadingMessage := "" }, true)
        | .error err =>
          some ({ s with
              error := some (getFriendlyErrorMessage parseNested err "Failed to change pose")
              isLoading := false
              loadingMessage := "" }, true)

/-- handleRegenerateImage (source lines 266-301): overwrites only the
current pose's render of the active layer, keeping its other cached
poses.  none models the TypeError when the current layer is undefined. -/
def handleRegenerateImage (parseNested : String → Option String) (s : AppState)
    (gen : Except ErrValue String) : Option (AppState × Bool) :=
  if s.isLoading = true ∨ s.currentOutfitIndex = 0 then some (s, false)
  else
    match s.outfitHistory[s.currentOutfitIndex]? with
    | none => none
    | some currentLayer =>
      match currentLayer.garment with
      | none => some (s, false)
      | some _ =>
        match s.outfitHistory[s.currentOutfitIndex - 1]? with
        | none => none
        | some previousLayer =>
          if isTruthy (poseValues previousLayer.poseImages).head? = false then
            some (s, false)
          else
            match gen with
            | .ok newImageUrl =>
              some ({ s with
                  error := none
                  outfitHistory := s.outfitHistory.set s.currentOutfitIndex
                    { currentLayer with
                        poseImages := insertPose currentLayer.poseImages
                          (poseInstructionAt s.currentPoseIndex) newImageUrl }
                  isLoading := false
                  loadingMessage := "" }, true)
            | .error err =>
              some ({ s with
                  error := some (getFriendlyErrorMessage parseNested err
                    "Failed to regenerate image")
                  isLoading := false
                  loadingMessage := "" }, true)

/-- handleChangeColor (source lines 303-336): on success the active layer
is replaced by a fresh layer with the same garment and a single-entry
poseImages map at the current pose.  none models the TypeError when the
current layer is undefined. -/
def handleChangeColor (parseNested : String → Option String) (s : AppState)
    (_newColor : String) (gen : Except ErrValue String) : Option (AppState × Bool) :=
  if s.isLoading = true ∨ s.currentOutfitIndex = 0 then some (s, false)
  else
    match s.outfitHistory[s.currentOutfitIndex]? with
    | none => none
    | some currentLayer =>
      match currentLayer.garment with
      | none => some (s, false)
      | some garmentInfo =>
        if isTruthy (poseValues currentLayer.poseImages).head? = false then
          some (s, false)
        else
          match gen with
          | .ok newImageUrl =>
            some ({ s with
                error := none
                outfitHistory := s.outfitHistory.set s.currentOutfitIndex
                  { garment := some garmentInfo
                    poseImages := [(poseInstructionAt s.currentPoseIndex, newImageUrl)] }
                isLoading := false
                loadingMessage := "" }, true)
          | .error err =>
            some ({ s with
                error := some (getFriendlyErrorMessage parseNested err
                  "Failed to change color")
                isLoading := false
                loadingMessage := "" }, true)

/-- handleSaveOutfit (source lines 138-163).  Date.now() and the ISO
timestamp are passed in as parameters nowMs and createdAt; the in-memory
gallery list is updated regardless of localStorage success, as in the
source. -/
def handleSaveOutfit (s : AppState) (nowMs : Nat) (createdAt : String) : AppState :=
  if isFalsy (displayImageUrl s) = true ∨ (activeOutfitLayers s).length ≤ 1 then s
  else
    let newSavedOutfit : SavedOutfit :=
      { id := "outfit-" ++ toString nowMs
        thumbnailUrl := (displayImageUrl s).getD ""
        layers := activeOutfitLayers s
        createdAt := createdAt }
    { s with
        savedOutfits := newSavedOutfit :: s.savedOutfits
        activeTab := Tab.gallery }

/-- One store operation, carrying the outcome of any external call it
makes (gen) and the behaviour of the JSON parser (p). -/
inductive Op where
  | finalize (url : String)
  | garmentSelect (p : String → Option String) (g : WardrobeItem) (gen : Except ErrValue String)
  | removeLast
  | poseSelect (p : String → Option String) (i : Nat) (gen : Except ErrValue String)
  | regenerate (p : String → Option String) (gen : Except ErrValue String)
  | changeColor (p : String → Option String) (c : String) (gen : Except ErrValue String)
  | save (nowMs : Nat) (createdAt : String)

/-- Apply one operation; none propagates a handler crash. -/
def applyOp (s : AppState) : Op → Option AppState
  | .finalize url => some (handleModelFinalized s url)
  | .garmentSelect p g gen => some (handleGarmentSelect p s g gen).1
  | .removeLast => some (handleRemoveLastGarment s)
  | .poseSelect p i gen => (handlePoseSelect p s i gen).map Prod.fst
  | .regenerate p gen => (handleRegenerateImage p s gen).map Prod.fst
  | .changeColor p c gen => (handleChangeColor p s c gen).map Prod.fst
  | .save nowMs createdAt => some (handleSaveOutfit s nowMs createdAt)

/-- Run a sequence of operations. -/
def runOps (s : AppState) : List Op → Option AppState
  | [] => some s
  | op :: rest =>
    match applyOp s op with
    | none => none
    | some s2 => runOps s2 rest

/-- The history part of the invariant: the history is non-empty, the
layer at index 0 has no garment, and every layer at an index greater
than 0 has one. -/
def HistInv (H : List OutfitLayer) : Prop :=
  H ≠ [] ∧
  (∀ l, H[0]? = some l → l.garment = none) ∧
  (∀ i l, H[i + 1]? = some l → l.garment ≠ none)

/-- The store invariant of the spec: the history invariant together with
the current index being a valid position in the history. -/
def StoreInv (s : AppState) : Prop :=
  HistInv s.outfitHistory ∧ s.currentOutfitIndex < s.outfitHistory.length

/-- A parse function for concrete test inputs: JSON.parse never yields a
truthy nested error message. -/
def parseNone : String → Option String := fun _ => none

/-- A concrete garment. -/
def sampleGarment : WardrobeItem :=
  { id := "g1", name := "Tee", url := "tee.png" }

/-- A concrete base layer as handleModelFinalized builds it. -/
def sampleBaseLayer : OutfitLayer :=
  { garment := none, poseImages := [(poseInstructionAt 0, "m.png")] }

/-- A concrete garment layer above the base. -/
def sampleLayer1 : OutfitLayer :=
  { garment := some sampleGarment, poseImages := [(poseInstructionAt 0, "g1.png")] }

/-- A concrete idle state: base plus one garment layer, index 1. -/
def sampleState : AppState :=
  { modelImageUrl := some "m.png"
    outfitHistory := [sampleBaseLayer, sampleLayer1]
    currentOutfitIndex := 1
    isLoading := false
    loadingMessage := ""
    error := none
    currentPoseIndex := 0
    wardrobe := [sampleGarment]
    savedOutfits := []
    activeTab := Tab.editor }

/-- C10: with a non-empty history, selecting the pose that is already
displayed returns immediately: no generation call is issued and the
state (history, current index, pose index) is unchanged, even when the
active layer has no cached render for that pose. -/
theorem poseSelect_same_index_noop (parseNested : String → Option String)
    (s : AppState) (newIndex : Nat) (gen : Except ErrValue String)
    (hne : s.outfitHistory ≠ []) (heq : newIndex = s.currentPoseIndex) :
    handlePoseSelect parseNested s newIndex gen = some (s, false) := by
  unfold handlePoseSelect
  rw [if_pos (Or.inr (Or.inr heq))]

/-- Witness for C10 at a concrete state. -/
theorem poseSelect_same_index_noop_witness :
    handlePoseSelect parseNone sampleState 0 (Except.ok "x.png") =
      some (sampleState, false) :=
  poseSelect_same_index_noop parseNone sampleState 0 (Except.ok "x.png")
    (by decide) (by decide)

/-- C2: when the layer at index + 1 exists and carries the same garment
id as the garment being applied, handleGarmentSelect is a pure redo: the
index advances by one, no generation call is issued (second component
false), and the history contents are untouched. -/
theorem garmentSelect_redo (parseNested : String → Option String)
    (s : AppState) (g : WardrobeItem) (gen : Except ErrValue String)
    (l : OutfitLayer)
    (hdisp : isFalsy (displayImageUrl s) = false)
    (hbusy : s.isLoading = false)
    (hnext : s.outfitHistory[s.currentOutfitIndex + 1]? = some l)
    (hmatch : garmentIdMatches l g = true) :
    handleGarmentSelect parseNested s g gen =
      ({ s with
          currentOutfitIndex := s.currentOutfitIndex + 1
          currentPoseIndex := 0 }, false) := by
  unfold handleGarmentSelect
  rw [if_neg (by simp [hdisp, hbusy]), hnext]
  simp only [hmatch, if_pos]

/-- Witness for C2: redo after an undo in the concrete sample state. -/
theorem garmentSelect_redo_witness :
    handleGarmentSelect parseNone
      { sampleState with currentOutfitIndex := 0 } sampleGarment
      (Except.error ErrValue.falsyNonErr) =
      ({ sampleState with currentOutfitIndex := 1, currentPoseIndex := 0 }, false) := by
  have h := garmentSelect_redo parseNone
    { sampleState with currentOutfitIndex := 0 } sampleGarment
    (Except.error ErrValue.falsyNonErr) sampleLayer1
    (by decide) (by decide) (by decide) (by decide)
  exact h

/-- C5: when selectPose is invoked for a pose with no (truthy) cached
render and the external pose-variation call fails, the settled state has
the pose index at exactly its pre-call value and the history (hence the
active layer's poseImages) unchanged; only the error message, busy flag
and loading message fields are touched. -/
theorem poseSelect_failure_rollback (parseNested : String → Option String)
    (s : AppState) (newIndex : Nat) (err : ErrValue) (l : OutfitLayer)
    (hbusy : s.isLoading = false)
    (hne : s.outfitHistory ≠ [])
    (hdiff : newIndex ≠ s.currentPoseIndex)
    (hl : s.outfitHistory[s.currentOutfitIndex]? = some l)
    (hnocache : isTruthy (lookupPose l.poseImages (poseInstructionAt newIndex)) = false)
    (hbase : isTruthy (poseValues l.poseImages).head? = true) :
    handlePoseSelect parseNested s newIndex (Except.error err) =
      some ({ s with
          error := some (getFriendlyErrorMessage parseNested err "Failed to change pose")
          isLoading := false
          loadingMessage := "" }, true) := by
  unfold handlePoseSelect
  rw [if_neg (by simp [hbusy, hne, hdiff]), hl]
  simp only [hnocache, hbase]
  simp

/-- Witness for C5 at a concrete state: pose 1 has no cached render and
the call fails. -/
theorem poseSelect_failure_rollback_witness :
    handlePoseSelect parseNone sampleState 1 (Except.error (ErrValue.str "boom")) =
      some ({ sampleState with
          error := some (getFriendlyErrorMessage parseNone (ErrValue.str "boom")
            "Failed to change pose")
          isLoading := false
          loadingMessage := "" }, true) :=
  poseSelect_failure_rollback parseNone sampleState 1 (ErrValue.str "boom")
    sampleLayer1 (by decide) (by decide) (by decide) (by decide) (by decide) (by decide)

/-- C4: a successful changeColor at a positive current index replaces the
active layer by a fresh layer with the same garment and a poseImages map
holding exactly the one entry for the current pose; every other layer and
both indices are unchanged (the history is a pointwise set at the current
index and no index field is touched). -/
theorem changeColor_replaces_active_layer (parseNested : String → Option String)
    (s : AppState) (color : String) (img : String) (l : OutfitLayer)
    (gi : WardrobeItem)
    (hbusy : s.isLoading = false)
    (hidx : s.currentOutfitIndex ≠ 0)
    (hl : s.outfitHistory[s.currentOutfitIndex]? = some l)
    (hg : l.garment = some gi)
    (hbase : isTruthy (poseValues l.poseImages).head? = true) :
    handleChangeColor parseNested s color (Except.ok img) =
      some ({ s with
          error := none
          outfitHistory := s.outfitHistory.set s.currentOutfitIndex
            { garment := some gi
              poseImages := [(poseInstructionAt s.currentPoseIndex, img)] }
          isLoading := false
          loadingMessage := "" }, true) ∧
    (∀ j, j ≠ s.currentOutfitIndex →
      (s.outfitHistory.set s.currentOutfitIndex
        { garment := some gi
          poseImages := [(poseInstructionAt s.currentPoseIndex, img)] })[j]? =
        s.outfitHistory[j]?) := by
  constructor
  · unfold handleChangeColor
    rw [if_neg (by simp [hbusy, hidx]), hl]
    simp only [hg, hbase]
    simp
  · intro j hj
    exact List.getElem?_set_ne (fun h => hj h.symm)

/-- Witness for C4: change the sample garment layer to red. -/
theorem changeColor_replaces_active_layer_witness :
    handleChangeColor parseNone sampleState "Red" (Except.ok "red.png") =
      some ({ sampleState with
          error := none
          outfitHistory := sampleState.outfitHistory.set 1
            { garment := some sampleGarment
              poseImages := [(poseInstructionAt 0, "red.png")] }
          isLoading := false
          loadingMessage := "" }, true) :=
  (changeColor_replaces_active_layer parseNone sampleState "Red" "red.png"
    sampleLayer1 sampleGarment (by decide) (by decide) (by decide) (by decide)
    (by decide)).1

/-- C7: handleRemoveLastGarment at index 0 is a no-op; at a positive
index it only decrements the index and resets the pose index, leaving the
history contents entirely unchanged, so that immediately re-applying the
garment of the layer that was undone succeeds as a pure redo without a
generation call (second component false), restoring the original index. -/
theorem removeLastGarment_spec (parseNested : String → Option String) (s : AppState) :
    (s.currentOutfitIndex = 0 → handleRemoveLastGarment s = s) ∧
    (0 < s.currentOutfitIndex →
      handleRemoveLastGarment s =
        { s with
            currentOutfitIndex := s.currentOutfitIndex - 1
            currentPoseIndex := 0 }) ∧
    (handleRemoveLastGarment s).outfitHistory = s.outfitHistory ∧
    (∀ l g gen, 0 < s.currentOutfitIndex →
      s.outfitHistory[s.currentOutfitIndex]? = some l →
      l.garment = some g →
      g.id = (g : WardrobeItem).id →
      s.isLoading = false →
      isFalsy (displayImageUrl (handleRemoveLastGarment s)) = false →
      handleGarmentSelect parseNested (handleRemoveLastGarment s) g gen =
        ({ s with
            currentOutfitIndex := s.currentOutfitIndex
            currentPoseIndex := 0 }, false)) := by
  refine ⟨?_, ?_, ?_, ?_⟩
  · intro h0
    unfold handleRemoveLastGarment
    rw [if_neg (by omega)]
  · intro hpos
    unfold handleRemoveLastGarment
    rw [if_pos hpos]
  · unfold handleRemoveLastGarment
    split <;> rfl
  · intro l g gen hpos hl hg _ hbusy hdisp
    have hrem : handleRemoveLastGarment s =
        { s with
            currentOutfitIndex := s.currentOutfitIndex - 1
            currentPoseIndex := 0 } := by
      unfold handleRemoveLastGarment
      rw [if_pos hpos]
    rw [hrem] at hdisp ⊢
    unfold handleGarmentSelect
    rw [if_neg (by simp only [hdisp]; simp [hbusy])]
    have hsub : s.currentOutfitIndex - 1 + 1 = s.currentOutfitIndex := by omega
    simp only [hsub]
    rw [hl]
    have hm : garmentIdMatches l g = true := by
      unfold garmentIdMatches
      rw [hg]
      simp
    simp only [hm, if_pos]

/-- Witness for C7: the redo consequence at the concrete sample state. -/
theorem removeLastGarment_spec_witness :
    handleGarmentSelect parseNone (handleRemoveLastGarment sampleState)
      sampleGarment (Except.error ErrValue.falsyNonErr) =
      ({ sampleState with currentOutfitIndex := 1, currentPoseIndex := 0 }, false) := by
  have h := (removeLastGarment_spec parseNone sampleState).2.2.2
    sampleLayer1 sampleGarment (Except.error ErrValue.falsyNonErr)
    (by decide) (by decide) (by decide) (by decide) (by decide) (by decide)
  exact h

/-- A concrete state whose base layer caches two poses and whose current
pose index is 1, used to exhibit the pose-index behaviour of a fresh
garment application. -/
def twoPoseState : AppState :=
  { modelImageUrl := some "m.png"
    outfitHistory := [{ garment := none
                        poseImages := [(poseInstructionAt 0, "m.png"),
                                       (poseInstructionAt 1, "m1.png")] }]
    currentOutfitIndex := 0
    isLoading := false
    loadingMessage := ""
    error := none
    currentPoseIndex := 1
    wardrobe := []
    savedOutfits := []
    activeTab := Tab.editor }

/-- Counterexample to C1 as stated: from twoPoseState (pose index 1), a
successful application of a new garment appends the new layer and
advances the index, but leaves the pose index at 1 — it is not reset
to 0 (the source only resets the pose index on the redo branch). -/
theorem garmentApply_pose_index_counterexample :
    (handleGarmentSelect parseNone twoPoseState sampleGarment
        (Except.ok "g1.png")).1.outfitHistory.length = 2 ∧
    (handleGarmentSelect parseNone twoPoseState sampleGarment
        (Except.ok "g1.png")).1.currentOutfitIndex = 1 ∧
    ¬ (handleGarmentSelect parseNone twoPoseState sampleGarment
        (Except.ok "g1.png")).1.currentPoseIndex = 0 := by
  decide

/-- C1 amended: applying a new garment (one whose id differs from the
garment id of the layer at index + 1, if any) with a successful
generation truncates the history to the prefix up to the current index,
appends exactly one new layer whose garment is the applied garment and
whose poseImages maps only the current pose instruction to the generated
image, advances the current index by one, and leaves the pose index
unchanged (not reset to 0). -/
theorem garmentApply_truncate_append (parseNested : String → Option String)
    (s : AppState) (g : WardrobeItem) (img : String)
    (hdisp : isFalsy (displayImageUrl s) = false)
    (hbusy : s.isLoading = false)
    (hidx : s.currentOutfitIndex < s.outfitHistory.length)
    (hnext : ∀ l, s.outfitHistory[s.currentOutfitIndex + 1]? = some l →
      garmentIdMatches l g = false) :
    (handleGarmentSelect parseNested s g (Except.ok img)).1.outfitHistory =
      s.outfitHistory.take (s.currentOutfitIndex + 1) ++
        [{ garment := some g
           poseImages := [(poseInstructionAt s.currentPoseIndex, img)] }] ∧
    (handleGarmentSelect parseNested s g (Except.ok img)).1.currentOutfitIndex =
      s.currentOutfitIndex + 1 ∧
    (handleGarmentSelect parseNested s g (Except.ok img)).1.currentPoseIndex =
      s.currentPoseIndex ∧
    (handleGarmentSelect parseNested s g (Except.ok img)).2 = true := by
  have hred : handleGarmentSelect parseNested s g (Except.ok img) =
      garmentGenerate parseNested s g (Except.ok img) := by
    unfold handleGarmentSelect
    rw [if_neg (by simp [hdisp, hbusy])]
    cases hcase : s.outfitHistory[s.currentOutfitIndex + 1]? with
    | none => rfl
    | some l => simp only [hnext l hcase, Bool.false_eq_true, if_false]
  rw [hred]
  unfold garmentGenerate
  exact ⟨rfl, rfl, rfl, rfl⟩

/-- Witness for the amended C1 at the concrete two-pose state. -/
theorem garmentApply_truncate_append_witness :
    (handleGarmentSelect parseNone twoPoseState sampleGarment
        (Except.ok "g1.png")).1.outfitHistory =
      twoPoseState.outfitHistory.take 1 ++
        [{ garment := some sampleGarment
           poseImages := [(poseInstructionAt 1, "g1.png")] }] := by
  have h := (garmentApply_truncate_append parseNone twoPoseState sampleGarment
    "g1.png" (by decide) (by decide) (by decide)
    (fun l hl => by simp [twoPoseState] at hl)).1
  exact h

/-- A concrete busy state (a generation is in flight) above the sample
history. -/
def busyState : AppState :=
  { modelImageUrl := some "m.png"
    outfitHistory := [sampleBaseLayer, sampleLayer1]
    currentOutfitIndex := 1
    isLoading := true
    loadingMessage := "Adding Tee..."
    error := none
    currentPoseIndex := 0
    wardrobe := [sampleGarment]
    savedOutfits := []
    activeTab := Tab.editor }

/-- Counterexample to C3 as stated: handleRemoveLastGarment has no
busy-flag guard in the source, so with the busy flag set it still
mutates the current index (1 becomes 0) instead of returning silently
with the state unchanged. -/
theorem busy_removeLastGarment_counterexample :
    busyState.isLoading = true ∧
    (handleRemoveLastGarment busyState).currentOutfitIndex = 0 ∧
    ¬ (handleRemoveLastGarment busyState).currentOutfitIndex =
        busyState.currentOutfitIndex := by
  decide

/-- C3 amended: with the busy flag set, applyGarment, selectPose,
regenerateActiveLayer and changeColor are rejected, returning silently
with the whole state unchanged and no generation call; removeLastGarment
however carries no busy guard (it is synchronous and never touches the
flag).  Moreover no operation ever leaves the busy flag newly set: every
settled result either has the flag clear or is the unchanged input
state. -/
theorem busy_flag_policy (parseNested : String → Option String) (s : AppState) :
    (s.isLoading = true →
      (∀ g gen, handleGarmentSelect parseNested s g gen = (s, false)) ∧
      (∀ i gen, handlePoseSelect parseNested s i gen = some (s, false)) ∧
      (∀ gen, handleRegenerateImage parseNested s gen = some (s, false)) ∧
      (∀ c gen, handleChangeColor parseNested s c gen = some (s, false))) ∧
    (∀ g gen, (handleGarmentSelect parseNested s g gen).1.isLoading = false ∨
      (handleGarmentSelect parseNested s g gen).1 = s) ∧
    (∀ i gen r, handlePoseSelect parseNested s i gen = some r →
      r.1.isLoading = false ∨ r.1 = s) ∧
    (∀ gen r, handleRegenerateImage parseNested s gen = some r →
      r.1.isLoading = false ∨ r.1 = s) ∧
    (∀ c gen r, handleChangeColor parseNested s c gen = some r →
      r.1.isLoading = false ∨ r.1 = s) ∧
    (handleRemoveLastGarment s = s ∨
      handleRemoveLastGarment s =
        { s with
            currentOutfitIndex := s.currentOutfitIndex - 1
            currentPoseIndex := 0 }) := by
  refine ⟨?_, ?_, ?_, ?_, ?_, ?_⟩
  · intro hbusy
    refine ⟨?_, ?_, ?_, ?_⟩
    · intro g gen
      unfold handleGarmentSelect
      rw [if_pos (Or.inr hbusy)]
    · intro i gen
      unfold handlePoseSelect
      rw [if_pos (Or.inl hbusy)]
    · intro gen
      unfold handleRegenerateImage
      rw [if_pos (Or.inl hbusy)]
    · intro c gen
      unfold handleChangeColor
      rw [if_pos (Or.inl hbusy)]
  · intro g gen
    unfold handleGarmentSelect
    split
    · exact Or.inr rfl
    · rename_i hguard
      have hload : s.isLoading = false := by
        rcases Bool.eq_false_or_eq_true s.isLoading with h | h
        · exact absurd (Or.inr h) hguard
        · exact h
      split
      · split
        · exact Or.inl hload
        · unfold garmentGenerate
          cases gen <;> exact Or.inl rfl
      · unfold garmentGenerate
        cases gen <;> exact Or.inl rfl
  · intro i gen r hr
    unfold handlePoseSelect at hr
    split at hr
    · cases hr
      exact Or.inr rfl
    · rename_i hguard
      have hload : s.isLoading = false := by
        rcases Bool.eq_false_or_eq_true s.isLoading with h | h
        · exact absurd (Or.inl h) hguard
        · exact h
      split at hr
      · cases hr
      · split at hr
        · cases hr
          exact Or.inl hload
        · split at hr
          · cases hr
            exact Or.inr rfl
          · cases gen <;> cases hr <;> exact Or.inl rfl
  · intro gen r hr
    unfold handleRegenerateImage at hr
    split at hr
    · cases hr
      exact Or.inr rfl
    · split at hr
      · cases hr
      · split at hr
        · cases hr
          exact Or.inr rfl
        · split at hr
          · cases hr
          · split at hr
            · cases hr
              exact Or.inr rfl
            · cases gen <;> cases hr <;> exact Or.inl rfl
  · intro c gen r hr
    unfold handleChangeColor at hr
    split at hr
    · cases hr
      exact Or.inr rfl
    · split at hr
      · cases hr
      · split at hr
        · cases hr
          exact Or.inr rfl
        · split at hr
          · cases hr
            exact Or.inr rfl
          · cases gen <;> cases hr <;> exact Or.inl rfl
  · unfold handleRemoveLastGarment
    split
    · exact Or.inr rfl
    · exact Or.inl rfl

/-- Witness for the amended C3 at the concrete busy state. -/
theorem busy_flag_policy_witness :
    handleGarmentSelect parseNone busyState sampleGarment
        (Except.ok "x.png") = (busyState, false) ∧
    handleChangeColor parseNone busyState "Red" (Except.ok "x.png") =
      some (busyState, false) := by
  have h := (busy_flag_policy parseNone busyState).1 (by decide)
  exact ⟨h.1 sampleGarment (Except.ok "x.png"), h.2.2.2 "Red" (Except.ok "x.png")⟩

/-- A concrete state whose gallery already holds an outfit whose id is
the one Date.now() = 5 would generate. -/
def galleryClashState : AppState :=
  { modelImageUrl := some "m.png"
    outfitHistory := [sampleBaseLayer, sampleLayer1]
    currentOutfitIndex := 1
    isLoading := false
    loadingMessage := ""
    error := none
    currentPoseIndex := 0
    wardrobe := [sampleGarment]
    savedOutfits := [{ id := "outfit-5"
                       thumbnailUrl := "old.png"
                       layers := [sampleBaseLayer, sampleLayer1]
                       createdAt := "earlier" }]
    activeTab := Tab.editor }

/-- Counterexample to C6 as stated: the saved-outfit id is derived only
from Date.now() with no uniqueness check, so saving two active layers
when the gallery already holds an outfit with the same timestamp id
prepends a duplicate id — the new entry's id is not unique among all
saved outfits. -/
theorem saveOutfit_duplicate_id_counterexample :
    2 ≤ (activeOutfitLayers galleryClashState).length ∧
    ¬ (((handleSaveOutfit galleryClashState 5 "later").savedOutfits.map
        SavedOutfit.id).Nodup) := by
  decide

/-- C6 amended: save with at most one active layer is rejected and the
gallery is unchanged; with at least two active layers (and a truthy
display image, which is the thumbnail) it prepends a new SavedOutfit
whose id is derived from the supplied timestamp, whose thumbnailUrl is
the displayed image and whose layers are the active layers.  The new id
is unique among all saved outfits only under the extra assumption that
no existing entry already carries the id derived from that timestamp. -/
theorem saveOutfit_spec (s : AppState) (nowMs : Nat) (createdAt : String) :
    ((activeOutfitLayers s).length ≤ 1 → handleSaveOutfit s nowMs createdAt = s) ∧
    (∀ t, displayImageUrl s = some t → t ≠ "" →
      2 ≤ (activeOutfitLayers s).length →
      (handleSaveOutfit s nowMs createdAt).savedOutfits =
        { id := "outfit-" ++ toString nowMs
          thumbnailUrl := t
          layers := activeOutfitLayers s
          createdAt := createdAt } :: s.savedOutfits) ∧
    (("outfit-" ++ toString nowMs) ∉ s.savedOutfits.map SavedOutfit.id →
      (s.savedOutfits.map SavedOutfit.id).Nodup →
      ((handleSaveOutfit s nowMs createdAt).savedOutfits.map SavedOutfit.id).Nodup) := by
  refine ⟨?_, ?_, ?_⟩
  · intro hle
    unfold handleSaveOutfit
    rw [if_pos (Or.inr hle)]
  · intro t ht htne hlen
    unfold handleSaveOutfit
    rw [if_neg (by simp [isFalsy, isTruthy, ht, htne]; omega)]
    simp only [ht, Option.getD_some]
  · intro hmem hnodup
    unfold handleSaveOutfit
    split
    · exact hnodup
    · simp only [List.map_cons]
      exact List.nodup_cons.mpr ⟨hmem, hnodup⟩

/-- Witness for the amended C6: saving the sample state with a fresh
timestamp prepends exactly the expected entry. -/
theorem saveOutfit_spec_witness :
    (handleSaveOutfit sampleState 7 "now").savedOutfits =
      [{ id := "outfit-7"
         thumbnailUrl := "g1.png"
         layers := activeOutfitLayers sampleState
         createdAt := "now" }] := by
  have h := (saveOutfit_spec sampleState 7 "now").2.1 "g1.png"
    (by decide) (by decide) (by decide)
  simpa using h

/-- C9: the friendly-error translation yields one of the two specific
unsupported-file-type messages exactly when the raw message contains the
substring "Unsupported MIME type" — the MIME-specific variant (with the
type extracted after the first ": " of the nested message) when the
JSON-wrapped payload parses to a nested message still containing that
substring, the generic variant otherwise — and for every other error it
returns the context, a period and a space, and the raw message. -/
theorem friendlyError_spec (parseNested : String → Option String)
    (e : ErrValue) (ctx : String) :
    (strIncludes (rawMessageOf e) "Unsupported MIME type" = false →
      getFriendlyErrorMessage parseNested e ctx = ctx ++ ". " ++ rawMessageOf e) ∧
    (strIncludes (rawMessageOf e) "Unsupported MIME type" = true →
      (∀ m, parseNested (rawMessageOf e) = some m →
        strIncludes m "Unsupported MIME type" = true →
        getFriendlyErrorMessage parseNested e ctx = unsupportedMimeMessage m) ∧
      (∀ m, parseNested (rawMessageOf e) = some m →
        strIncludes m "Unsupported MIME type" = false →
        getFriendlyErrorMessage parseNested e ctx = genericUnsupportedMessage) ∧
      (parseNested (rawMessageOf e) = none →
        getFriendlyErrorMessage parseNested e ctx = genericUnsupportedMessage)) := by
  constructor
  · intro hno
    unfold getFriendlyErrorMessage
    rw [if_neg (by simp [hno])]
  · intro hyes
    refine ⟨?_, ?_, ?_⟩
    · intro m hm hmime
      unfold getFriendlyErrorMessage
      rw [if_pos hyes, hm]
      simp only [hmime, if_pos]
    · intro m hm hmime
      unfold getFriendlyErrorMessage
      rw [if_pos hyes, hm]
      simp only [hmime, Bool.false_eq_true, if_false]
    · intro hm
      unfold getFriendlyErrorMessage
      rw [if_pos hyes, hm]

/-- Witness for C9 in both regimes: a plain failure uses the generic
context template, and a JSON-wrapped unsupported-MIME payload produces
the MIME-specific message. -/
theorem friendlyError_spec_witness :
    getFriendlyErrorMessage parseNone (ErrValue.str "boom") "Failed to apply garment" =
      "Failed to apply garment. boom" ∧
    getFriendlyErrorMessage (fun _ => some "Unsupported MIME type: image/tiff")
      (ErrValue.errObj "\x7b\"error\":\x7b\"message\":\"Unsupported MIME type: image/tiff\"\x7d\x7d")
      "Failed to apply garment" =
      "File type \x27image/tiff\x27 is not supported. Please use a format like PNG, JPEG, or WEBP." := by
  constructor
  · have h := (friendlyError_spec parseNone (ErrValue.str "boom")
      "Failed to apply garment").1 (by decide)
    simpa using h
  · have h := ((friendlyError_spec (fun _ => some "Unsupported MIME type: image/tiff")
      (ErrValue.errObj "\x7b\"error\":\x7b\"message\":\"Unsupported MIME type: image/tiff\"\x7d\x7d")
      "Failed to apply garment").2 (by decide)).1
      "Unsupported MIME type: image/tiff" rfl (by decide)
    rw [h]
    decide

/-- The history built by handleModelFinalized satisfies the history
invariant. -/
theorem histInv_finalized (p url : String) :
    HistInv [{ garment := none, poseImages := [(p, url)] }] := by
  refine ⟨by simp, ?_, ?_⟩
  · intro l hl
    simp at hl
    rw [← hl]
  · intro i l hl
    simp at hl

/-- Replacing the layer at a valid index by a layer with the same garment
preserves the history invariant. -/
theorem histInv_set_same (H : List OutfitLayer) (i : Nat) (l l' : OutfitLayer)
    (h : HistInv H) (hl : H[i]? = some l) (hg : l'.garment = l.garment) :
    HistInv (H.set i l') := by
  obtain ⟨hne, h0, hpos⟩ := h
  have hilen : i < H.length := (List.getElem?_eq_some.mp hl).1
  refine ⟨?_, ?_, ?_⟩
  · have : (H.set i l').length = H.length := List.length_set H i l'
    intro hcon
    rw [hcon] at this
    exact hne (List.eq_nil_of_length_eq_zero this.symm)
  · intro m hm
    rcases Nat.eq_zero_or_pos i with hi0 | hipos
    · subst hi0
      rw [List.getElem?_set_self', hl] at hm
      simp at hm
      rw [← hm, hg]
      exact h0 l hl
    · rw [List.getElem?_set_ne (by omega)] at hm
      exact h0 m hm
  · intro j m hm
    by_cases hij : i = j + 1
    · subst hij
      rw [List.getElem?_set_self', hl] at hm
      simp at hm
      rw [← hm, hg]
      exact hpos j l hl
    · rw [List.getElem?_set_ne hij] at hm
      exact hpos j m hm

/-- Truncating a history satisfying the invariant after any index and
appending one garment-carrying layer preserves the history invariant. -/
theorem histInv_truncate_append (H : List OutfitLayer) (i : Nat) (l' : OutfitLayer)
    (h : HistInv H) (hg : l'.garment ≠ none) :
    HistInv (H.take (i + 1) ++ [l']) := by
  obtain ⟨hne, h0, hpos⟩ := h
  have hHlen : 0 < H.length := List.length_pos.mpr hne
  have htpos : 0 < (H.take (i + 1)).length := by
    rw [List.length_take]
    exact lt_min (by omega) hHlen
  have htle : (H.take (i + 1)).length ≤ i + 1 := List.length_take_le _ _
  refine ⟨by simp, ?_, ?_⟩
  · intro m hm
    rw [List.getElem?_append] at hm
    split at hm
    · rw [List.getElem?_take] at hm
      rw [if_pos (by omega)] at hm
      exact h0 m hm
    · omega
  · intro j m hm
    rw [List.getElem?_append] at hm
    split at hm
    · rename_i hlt
      rw [List.getElem?_take] at hm
      rw [if_pos (by omega)] at hm
      exact hpos j m hm
    · rcases Nat.eq_zero_or_pos (j + 1 - (H.take (i + 1)).length) with hk | hk
      · rw [hk] at hm
        simp at hm
        rw [← hm]
        exact hg
      · rw [List.getElem?_eq_none
            (by simp only [List.length_cons, List.length_nil]; exact hk)] at hm
        cases hm

/-- handleGarmentSelect preserves the store invariant. -/
theorem garmentSelect_inv (parseNested : String → Option String) (s : AppState)
    (g : WardrobeItem) (gen : Except ErrValue String) (h : StoreInv s) :
    StoreInv (handleGarmentSelect parseNested s g gen).1 := by
  unfold handleGarmentSelect
  split
  · exact h
  · split
    · split
      · rename_i nextLayer hnx _
        have hlt : s.currentOutfitIndex + 1 < s.outfitHistory.length :=
          (List.getElem?_eq_some.mp hnx).1
        exact ⟨h.1, hlt⟩
      · unfold garmentGenerate
        cases gen with
        | ok img =>
          refine ⟨histInv_truncate_append _ _ _ h.1 (by simp), ?_⟩
          simp only [List.length_append, List.length_take, List.length_cons,
            List.length_nil]
          have := h.2
          omega
        | error e => exact h
    · unfold garmentGenerate
      cases gen with
      | ok img =>
        refine ⟨histInv_truncate_append _ _ _ h.1 (by simp), ?_⟩
        simp only [List.length_append, List.length_take, List.length_cons,
          List.length_nil]
        have := h.2
        omega
      | error e => exact h

/-- handleRemoveLastGarment preserves the store invariant. -/
theorem removeLast_inv (s : AppState) (h : StoreInv s) :
    StoreInv (handleRemoveLastGarment s) := by
  unfold handleRemoveLastGarment
  split
  · refine ⟨h.1, ?_⟩
    have := h.2
    simp only
    omega
  · exact h

/-- handlePoseSelect never crashes from an invariant state and preserves
the store invariant. -/
theorem poseSelect_inv (parseNested : String → Option String) (s : AppState)
    (i : Nat) (gen : Except ErrValue String) (h : StoreInv s) :
    ∃ r, handlePoseSelect parseNested s i gen = some r ∧ StoreInv r.1 := by
  unfold handlePoseSelect
  split
  · exact ⟨(s, false), rfl, h⟩
  · obtain ⟨l, hl⟩ : ∃ l, s.outfitHistory[s.currentOutfitIndex]? = some l :=
      ⟨_, List.getElem?_eq_getElem h.2⟩
    rw [hl]
    simp only
    split
    · exact ⟨_, rfl, ⟨h.1, h.2⟩⟩
    · split
      · exact ⟨(s, false), rfl, h⟩
      · cases gen with
        | ok img =>
          refine ⟨_, rfl, ?_, ?_⟩
          · exact histInv_set_same _ _ _ _ h.1 hl rfl
          · simp only [List.length_set]
            exact h.2
        | error e => exact ⟨_, rfl, h⟩

/-- handleRegenerateImage never crashes from an invariant state and
preserves the store invariant. -/
theorem regenerate_inv (parseNested : String → Option String) (s : AppState)
    (gen : Except ErrValue String) (h : StoreInv s) :
    ∃ r, handleRegenerateImage parseNested s gen = some r ∧ StoreInv r.1 := by
  unfold handleRegenerateImage
  split
  · exact ⟨(s, false), rfl, h⟩
  · obtain ⟨l, hl⟩ : ∃ l, s.outfitHistory[s.currentOutfitIndex]? = some l :=
      ⟨_, List.getElem?_eq_getElem h.2⟩
    rw [hl]
    simp only
    split
    · exact ⟨(s, false), rfl, h⟩
    · have hprev : s.currentOutfitIndex - 1 < s.outfitHistory.length := by
        have := h.2
        omega
      obtain ⟨pl, hp⟩ : ∃ pl, s.outfitHistory[s.currentOutfitIndex - 1]? = some pl :=
        ⟨_, List.getElem?_eq_getElem hprev⟩
      rw [hp]
      simp only
      split
      · exact ⟨(s, false), rfl, h⟩
      · cases gen with
        | ok img =>
          refine ⟨_, rfl, ?_, ?_⟩
          · exact histInv_set_same _ _ _ _ h.1 hl rfl
          · simp only [List.length_set]
            exact h.2
        | error e => exact ⟨_, rfl, h⟩

/-- handleChangeColor never crashes from an invariant state and preserves
the store invariant. -/
theorem changeColor_inv (parseNested : String → Option String) (s : AppState)
    (c : String) (gen : Except ErrValue String) (h : StoreInv s) :
    ∃ r, handleChangeColor parseNested s c gen = some r ∧ StoreInv r.1 := by
  unfold handleChangeColor
  split
  · exact ⟨(s, false), rfl, h⟩
  · obtain ⟨l, hl⟩ : ∃ l, s.outfitHistory[s.currentOutfitIndex]? = some l :=
      ⟨_, List.getElem?_eq_getElem h.2⟩
    rw [hl]
    simp only
    split
    · rename_i hg
      exact ⟨(s, false), rfl, h⟩
    · rename_i gi hg
      split
      · exact ⟨(s, false), rfl, h⟩
      · cases gen with
        | ok img =>
          refine ⟨_, rfl, ?_, ?_⟩
          · refine histInv_set_same _ _ _
              { garment := some gi
                poseImages := [(poseInstructionAt s.currentPoseIndex, img)] }
              h.1 hl ?_
            simp [hg]
          · simp only [List.length_set]
            exact h.2
        | error e => exact ⟨_, rfl, h⟩

/-- handleSaveOutfit preserves the store invariant (it never touches the
history or the index). -/
theorem save_inv (s : AppState) (nowMs : Nat) (createdAt : String)
    (h : StoreInv s) : StoreInv (handleSaveOutfit s nowMs createdAt) := by
  unfold handleSaveOutfit
  split
  · exact h
  · exact h

/-- Every single operation applied to an invariant state succeeds and
yields an invariant state. -/
theorem applyOp_inv (s : AppState) (op : Op) (h : StoreInv s) :
    ∃ s2, applyOp s op = some s2 ∧ StoreInv s2 := by
  cases op with
  | finalize url =>
    refine ⟨_, rfl, histInv_finalized _ _, ?_⟩
    simp [handleModelFinalized]
  | garmentSelect p g gen => exact ⟨_, rfl, garmentSelect_inv p s g gen h⟩
  | removeLast => exact ⟨_, rfl, removeLast_inv s h⟩
  | poseSelect p i gen =>
    obtain ⟨r, hr, hinv⟩ := poseSelect_inv p s i gen h
    exact ⟨r.1, by simp [applyOp, hr], hinv⟩
  | regenerate p gen =>
    obtain ⟨r, hr, hinv⟩ := regenerate_inv p s gen h
    exact ⟨r.1, by simp [applyOp, hr], hinv⟩
  | changeColor p c gen =>
    obtain ⟨r, hr, hinv⟩ := changeColor_inv p s c gen h
    exact ⟨r.1, by simp [applyOp, hr], hinv⟩
  | save nowMs createdAt => exact ⟨_, rfl, save_inv s nowMs createdAt h⟩

/-- Any sequence of operations from an invariant state runs without a
crash and ends in an invariant state. -/
theorem runOps_inv (ops : List Op) : ∀ s : AppState, StoreInv s →
    ∃ s', runOps s ops = some s' ∧ StoreInv s' := by
  induction ops with
  | nil => exact fun s h => ⟨s, rfl, h⟩
  | cons op rest ih =>
    intro s h
    obtain ⟨s2, h2, hinv2⟩ := applyOp_inv s op h
    obtain ⟨s', h', hinv'⟩ := ih s2 hinv2
    refine ⟨s', ?_, hinv'⟩
    unfold runOps
    rw [h2]
    exact h'

/-- C8: after finalizing a model photo, any sequence of store operations
ends in a state where the history is non-empty, the layer at index 0 has
no garment, every layer at a positive index has one, and the current
index is a valid position in the history. -/
theorem storeInv_after_finalize (s0 : AppState) (url : String) (ops : List Op) :
    ∃ s', runOps (handleModelFinalized s0 url) ops = some s' ∧ StoreInv s' := by
  refine runOps_inv ops _ ⟨histInv_finalized _ _, ?_⟩
  simp [handleModelFinalized]
